import Mathlib

/-!
Verification of the wallet-connection and session-authentication core of the
Healthmint client, shallowly embedded from the JavaScript sources:

* `src/client/src/services/authService.js` — the `AuthService` singleton
  (token bundle in memory mirrored to `localStorage`).
* the `useWalletConnect` hook (second file bundled inside
  `src/client/src/components/UserRegistration.js`) — wallet connection,
  disconnection and provider-notification handling.
* `utils/sanitizers.js` (`src/unnamed/part_001`) — response sanitization.

Modelling conventions: `localStorage` / `sessionStorage` are records holding
only the keys the embedded functions touch, with `Option String` for
string-valued keys (`none` = key absent, so `localStorage.getItem` returning
`null`). ISO-8601 expiry strings are modelled by the millisecond instant they
denote, because the source only stores, reloads and compares them as instants
(`new Date(str) <= new Date()`). Asynchronous calls that can reject are given
an explicit outcome argument. Fire-and-forget dispatches (Redux notifications,
compliance audit-log calls) are collected into an explicit event list.
-/

namespace Healthmint

/-! ## AuthService (src/client/src/services/authService.js) -/

/-- JavaScript string truthiness for an optional string: `null`/`undefined`
and the empty string are falsy. -/
def truthy : Option String → Bool
  | none => false
  | some s => s ≠ ""

/-- In-memory fields of the `AuthService` instance
(`this.token`, `this.refreshToken`, `this.tokenExpiry`, `this.userProfile`,
`this._isNewUser`, `this.walletAddress`). The profile is kept as its JSON
text, which is all the embedded operations need. -/
structure AuthMem where
  token : Option String
  refreshToken : Option String
  tokenExpiry : Option Int
  userProfile : Option String
  isNewUser : Bool
  walletAddress : Option String
deriving Repr, DecidableEq

/-- The `localStorage` keys the auth service touches:
`healthmint_auth_token`, `healthmint_refresh_token`, `healthmint_token_expiry`,
`healthmint_user_profile`, `healthmint_is_new_user`,
`healthmint_wallet_address`. -/
structure AuthStore where
  token : Option String
  refreshToken : Option String
  tokenExpiry : Option Int
  userProfile : Option String
  isNewUser : Option String
  walletAddress : Option String
deriving Repr, DecidableEq

/-- Model of `loadAuthState()`: reads each key of `localStorage` independently into the
instance fields; `_isNewUser` is the comparison of the stored flag with
`"true"`. -/
def loadAuthState (s : AuthStore) : AuthMem :=
  { token := s.token
    refreshToken := s.refreshToken
    tokenExpiry := s.tokenExpiry
    userProfile := s.userProfile
    isNewUser := s.isNewUser = some "true"
    walletAddress := s.walletAddress }

/-- Model of `isAuthenticated()`: false without a (truthy) token; with a stored expiry,
false when `new Date(this.tokenExpiry) <= new Date()`; otherwise true. -/
def isAuthenticated (m : AuthMem) (now : Int) : Bool :=
  if truthy m.token = false then false
  else
    match m.tokenExpiry with
    | some e => if e ≤ now then false else true
    | none => true

/-- Model of `verifyToken()`: same token/expiry checks as `isAuthenticated()`. -/
def verifyToken (m : AuthMem) (now : Int) : Bool :=
  if truthy m.token = false then false
  else
    match m.tokenExpiry with
    | some e => if e ≤ now then false else true
    | none => true

/-- Result of `logout()`: the new instance state, the new `localStorage`
contents, and the returned boolean. -/
structure LogoutResult where
  mem : AuthMem
  store : AuthStore
  ok : Bool
deriving Repr, DecidableEq

/-- Model of `logout()`: the audit-log write (`hipaaComplianceService.createAuditLog`,
an external call) is awaited first inside the `try` block; `auditOk` is its
outcome. If it resolves, the five session keys are removed from
`localStorage`, the in-memory fields are nulled and `true` is returned.
If it rejects, control jumps to the `catch` block, which only returns
`false` — nothing is cleared. `healthmint_wallet_address` and
`this.walletAddress` are not touched on either path. -/
def logout (m : AuthMem) (s : AuthStore) (auditOk : Bool) : LogoutResult :=
  if auditOk then
    { mem := { m with token := none, refreshToken := none, tokenExpiry := none,
                      userProfile := none, isNewUser := false }
      store := { s with token := none, refreshToken := none, tokenExpiry := none,
                        userProfile := none, isNewUser := none }
      ok := true }
  else
    { mem := m, store := s, ok := false }

/-- Result of `refreshAuthToken()`. -/
structure RefreshResult where
  mem : AuthMem
  store : AuthStore
  ok : Bool
deriving Repr, DecidableEq

/-- Model of `refreshAuthToken()`: returns `false` at once if `this.refreshToken` is
falsy, touching nothing. Otherwise it builds a fresh demo bundle
(`demo_token_<now>`, `demo_refresh_<now>`, expiry `now + 24h`), writes all
three fields to memory and `localStorage`, and returns `true`. -/
def refreshAuthToken (m : AuthMem) (s : AuthStore) (now : Int) : RefreshResult :=
  if truthy m.refreshToken = false then
    { mem := m, store := s, ok := false }
  else
    { mem := { m with token := some ("demo_token_" ++ toString now)
                      refreshToken := some ("demo_refresh_" ++ toString now)
                      tokenExpiry := some (now + 24 * 60 * 60 * 1000) }
      store := { s with token := some ("demo_token_" ++ toString now)
                        refreshToken := some ("demo_refresh_" ++ toString now)
                        tokenExpiry := some (now + 24 * 60 * 60 * 1000) }
      ok := true }

/-- The argument object of `updateAuthState(authData)`. -/
structure AuthData where
  token : Option String
  refreshToken : Option String
  expiresAt : Option Int
  userProfile : Option String
  isNewUser : Bool
deriving Repr, DecidableEq

/-- Model of `updateAuthState(authData)`: memory fields are overwritten
unconditionally; each `localStorage` key is written only when the
corresponding value is truthy (a profile object is truthy whenever present),
while the `is_new_user` key is always written. -/
def updateAuthState (m : AuthMem) (s : AuthStore) (d : AuthData) :
    AuthMem × AuthStore :=
  ({ m with token := d.token, refreshToken := d.refreshToken,
            tokenExpiry := d.expiresAt, userProfile := d.userProfile,
            isNewUser := d.isNewUser },
   { s with token := if truthy d.token then d.token else s.token
            refreshToken := if truthy d.refreshToken then d.refreshToken else s.refreshToken
            tokenExpiry := if d.expiresAt.isSome then d.expiresAt else s.tokenExpiry
            userProfile := if d.userProfile.isSome then d.userProfile else s.userProfile
            isNewUser := some (if d.isNewUser then "true" else "false") })

/-! ## useWalletConnect (hook bundled in src/client/src/components/UserRegistration.js) -/

/-- The two `localStorage` keys the hook touches:
`healthmint_wallet_address`, `healthmint_wallet_connection`. -/
structure WalletStore where
  walletAddress : Option String
  walletConnection : Option String
deriving Repr, DecidableEq

/-- The `sessionStorage` keys touched by `disconnectWallet()`. -/
structure SessionStore where
  logoutInProgress : Option String
  authVerificationOverride : Option String
  bypassRouteProtection : Option String
  bypassRoleCheck : Option String
  forceWalletReconnect : Option String
deriving Repr, DecidableEq

/-- Result object of `getNetworkFromChainId`. -/
structure Network where
  name : String
  isSupported : Bool
  chainId : Option String
deriving Repr, DecidableEq

/-- The wallet slice of the Redux store as the hook reads and writes it. -/
structure WalletState where
  address : Option String
  chainId : Option String
  isConnected : Bool
  network : Option Network
  walletType : Option String
  lastConnected : Option Int
deriving Repr, DecidableEq

/-- Model of `getNetworkFromChainId(chainId)`: static table lookup with a synthesized
entry for unknown ids; a falsy argument yields the bare Unknown entry. -/
def getNetworkFromChainId (chainId : Option String) : Network :=
  match chainId with
  | none => { name := "Unknown", isSupported := false, chainId := none }
  | some c =>
    if c = "0x1" then
      { name := "Ethereum Mainnet", isSupported := true, chainId := some c }
    else if c = "0xaa36a7" then
      { name := "Sepolia Testnet", isSupported := true, chainId := some c }
    else if c = "0x5" then
      { name := "Goerli Testnet", isSupported := false, chainId := some c }
    else if c = "0x539" then
      { name := "Local Development", isSupported := true, chainId := some c }
    else
      { name := "Unknown Network (" ++ c ++ ")", isSupported := false, chainId := some c }

/-- Outcome of `window.ethereum.request({method: eth_requestAccounts})`:
either a resolved account list or a rejection carrying an error code. -/
inductive AccountsOutcome where
  | ok (accounts : List String)
  | rejected (code : Int)
deriving Repr, DecidableEq

/-- Outcome of `provider.getNetwork()` on the ethers Web3Provider. -/
inductive NetworkOutcome where
  | ok (chainId : String)
  | failure
deriving Repr, DecidableEq

/-- Behaviour of the external wallet provider for one `connectWallet()` call. -/
structure Provider where
  accountsOutcome : AccountsOutcome
  networkOutcome : NetworkOutcome
deriving Repr, DecidableEq

/-- Error message chosen in `connectWallet`'s catch block: codes 4001 and
-32002 get dedicated texts, anything else keeps the thrown error's message
(defaulting as in the source). -/
def rejectionMessage (code : Int) : String :=
  if code = 4001 then "You rejected the connection request."
  else if code = -32002 then
    "Connection request already pending. Please check your wallet."
  else "Failed to connect wallet"

/-- What one `connectWallet()` call returns and leaves behind. -/
structure ConnectOutput where
  success : Bool
  address : Option String
  chainId : Option String
  error : Option String
  store : WalletStore
  wallet : WalletState
deriving Repr, DecidableEq

/-- Model of `connectWallet()`: with no `window.ethereum` it returns the MetaMask
install error before touching anything. Otherwise it requests accounts, and
on a rejection, an empty account list, or a network-info failure it lands in
the catch block, which removes both wallet keys from `localStorage`. On
success it stores `accounts[0]` verbatim under `healthmint_wallet_address`,
sets `healthmint_wallet_connection` to `"true"`, and dispatches
`updateWalletConnection` with the address, chain id, `isConnected: true`,
`walletType: "metamask"` and `lastConnected: Date.now()`. -/
def connectWallet (provider : Option Provider) (now : Int)
    (s : WalletStore) (w : WalletState) : ConnectOutput :=
  match provider with
  | none =>
    { success := false, address := none, chainId := none
      error := some "Please install MetaMask to continue"
      store := s, wallet := w }
  | some p =>
    match p.accountsOutcome with
    | .rejected code =>
      { success := false, address := none, chainId := none
        error := some (rejectionMessage code)
        store := { walletAddress := none, walletConnection := none }
        wallet := w }
    | .ok [] =>
      { success := false, address := none, chainId := none
        error := some "No accounts found. Please connect your wallet."
        store := { walletAddress := none, walletConnection := none }
        wallet := w }
    | .ok (a :: _) =>
      match p.networkOutcome with
      | .failure =>
        { success := false, address := none, chainId := none
          error := some "Failed to connect wallet"
          store := { walletAddress := none, walletConnection := none }
          wallet := w }
      | .ok chain =>
        { success := true, address := some a, chainId := some chain
          error := none
          store := { walletAddress := some a, walletConnection := some "true" }
          wallet := { w with address := some a, chainId := some chain,
                             isConnected := true, walletType := some "metamask",
                             lastConnected := some now } }

/-- One fire-and-forget dispatch: a Redux notification
(`addNotification`) or a compliance audit record
(`hipaaComplianceService.createAuditLog`). -/
inductive Emitted where
  | notification (ntype message : String)
  | audit (eventType : String)
deriving Repr, DecidableEq

/-- Is this emitted event a compliance audit record? -/
def isAuditEvent : Emitted → Bool
  | .audit _ => true
  | _ => false

/-- State and dispatches left behind by the `accountsChanged` handler. -/
structure HandlerOutput where
  store : WalletStore
  wallet : WalletState
  emitted : List Emitted
deriving Repr, DecidableEq

/-- The truncated account text used in the account-changed notification
(`slice(0, 6)` and `slice(-4)`). -/
def shortAccount (a : String) : String :=
  a.take 6 ++ "..." ++ a.drop (a.length - 4)

/-- Model of `handleAccountsChanged(accounts)`: a no-op once `isActive` is cleared.
With an empty list it dispatches `clearWalletConnection` (modelled as a full
reset of the wallet slice), removes both wallet keys from `localStorage`, and
dispatches one info notification. With a non-empty list it stores and
dispatches the new first account and notifies. It makes no
`createAuditLog` call on any path. -/
def handleAccountsChanged (isActive : Bool) (accounts : List String)
    (s : WalletStore) (w : WalletState) : HandlerOutput :=
  if isActive = false then { store := s, wallet := w, emitted := [] }
  else
    match accounts with
    | [] =>
      { store := { s with walletAddress := none, walletConnection := none }
        wallet := { address := none, chainId := none, isConnected := false,
                    network := none, walletType := none, lastConnected := none }
        emitted := [.notification "info" "Wallet disconnected"] }
    | a :: _ =>
      { store := { s with walletAddress := some a }
        wallet := { w with address := some a }
        emitted := [.notification "info" ("Account changed to " ++ shortAccount a)] }

/-- State, return value and dispatches of one `disconnectWallet()` call. -/
structure DisconnectOutput where
  session : SessionStore
  store : WalletStore
  wallet : WalletState
  result : Bool
  emitted : List Emitted
deriving Repr, DecidableEq

/-- Model of `disconnectWallet()`: sets the logout flag, removes the three bypass
flags, best-effort notifies the provider (its errors are swallowed by the
inner try/catch, so the outcome does not depend on the provider), dispatches
`setWalletConnection` with a null address, `isConnected: false` and a null
network, removes both wallet keys from `localStorage`, sets the reconnect
flag, dispatches one success notification and returns `true`. -/
def disconnectWallet (_sess : SessionStore) (_s : WalletStore) (w : WalletState) :
    DisconnectOutput :=
  { session := { logoutInProgress := some "true"
                 authVerificationOverride := none
                 bypassRouteProtection := none
                 bypassRoleCheck := none
                 forceWalletReconnect := some "true" }
    store := { walletAddress := none, walletConnection := none }
    wallet := { w with address := none, isConnected := false, network := none }
    result := true
    emitted := [.notification "success" "Wallet disconnected successfully"] }

/-! ## Sanitizers (utils/sanitizers.js, src/unnamed/part_001) -/

/-- A JavaScript value as the sanitizers discriminate it: strings, numbers
(NaN is unreachable for values already numeric, so plain integers suffice
for the claims), booleans, null, undefined, Date instances (carrying their
instant), arrays and plain objects (ordered own enumerable entries). -/
inductive JSValue where
  | str (s : String)
  | num (n : Int)
  | bool (b : Bool)
  | null
  | undefined
  | date (t : Int)
  | arr (items : List JSValue)
  | obj (fields : List (String × JSValue))
deriving Repr

/-- JavaScript `typeof v === "object"`: true for null, Dates, arrays and
plain objects. -/
def isObjectType : JSValue → Bool
  | .null | .date _ | .arr _ | .obj _ => true
  | _ => false

/-- JavaScript falsiness of a value: null, undefined, the empty string,
zero and false. -/
def jsFalsy : JSValue → Bool
  | .null => true
  | .undefined => true
  | .str s => s = ""
  | .num n => n = 0
  | .bool b => !b
  | .arr _ => false
  | .obj _ => false
  | .date _ => false

/-- JavaScript `String.prototype.trim`: whitespace stripped from both ends,
written on the character list so that it evaluates inside the kernel. -/
def jsTrim (s : String) : String :=
  (((s.toList.dropWhile Char.isWhitespace).reverse.dropWhile
      Char.isWhitespace).reverse).asString

/-- Model of `sanitizeString(str)`: empty for a falsy argument; otherwise trim,
delete every angle bracket, and keep at most 1000 characters. -/
def sanitizeString (s : String) : String :=
  if s = "" then ""
  else (((jsTrim s).toList.filter (fun c => c ≠ '<' ∧ c ≠ '>')).take 1000).asString

/-- Model of `sanitizeNumber(num)`: `parseFloat` of a value that is already a number
is that number, and an integer is never NaN, so this is the identity on the
embedded numbers. -/
def sanitizeNumber (n : Int) : Int := n

mutual

/-- Model of `sanitizeObject(obj)`: a falsy or non-object argument yields `{}`
(so null and primitives give the empty object, and a Date — whose own
enumerable entries are empty — does too); an array is turned into the plain
object of its index entries by `Object.entries`; a plain object has each
entry sanitized by type. -/
def sanitizeObject : JSValue → JSValue
  | .obj fields => .obj (sanitizeFields fields)
  | .arr items => .obj (sanitizeArrFields 0 items)
  | _ => .obj []

/-- The `for (const [key, value] of Object.entries(obj))` loop of
`sanitizeObject` over a plain object's entries. -/
def sanitizeFields : List (String × JSValue) → List (String × JSValue)
  | [] => []
  | (k, v) :: rest => (k, sanitizeEntry v) :: sanitizeFields rest

/-- The same loop over `Object.entries` of an array: keys are the decimal
indices. -/
def sanitizeArrFields : Nat → List JSValue → List (String × JSValue)
  | _, [] => []
  | i, v :: rest => (toString i, sanitizeEntry v) :: sanitizeArrFields (i + 1) rest

/-- The `switch (typeof value)` body of `sanitizeObject` for one entry:
strings and numbers are sanitized, a Date is copied, an array maps its
items, and the remaining `typeof object` values (null and plain objects
here) go back through `sanitizeObject`; booleans and undefined pass
through the default branch unchanged. -/
def sanitizeEntry : JSValue → JSValue
  | .str s => .str (sanitizeString s)
  | .num n => .num (sanitizeNumber n)
  | .date t => .date t
  | .arr items => .arr (sanitizeItems items)
  | .null => .obj []
  | .obj f => .obj (sanitizeFields f)
  | .bool b => .bool b
  | .undefined => .undefined

/-- The mapping `value.map(item => typeof item === "object" ? sanitizeObject(item) : item)`
for an array-valued entry. -/
def sanitizeItems : List JSValue → List JSValue
  | [] => []
  | item :: rest =>
      (if isObjectType item then sanitizeObject item else item) :: sanitizeItems rest

end

/-- The three fields `sanitizeResponse` destructures away. -/
def sensitiveKeys : List String := ["ssn", "dateOfBirth", "fullName"]

/-- The rest pattern `...sanitized`: every own enumerable entry whose key is
not one of the three destructured names. -/
def eraseSensitive (fields : List (String × JSValue)) : List (String × JSValue) :=
  fields.filter (fun kv => !(sensitiveKeys.contains kv.1))

/-- Decimal-indexed entries, as `Object.entries` yields them for an array. -/
def enumIndexed : Nat → List JSValue → List (String × JSValue)
  | _, [] => []
  | i, v :: rest => (toString i, v) :: enumIndexed (i + 1) rest

/-- Own enumerable entries of a value, the domain of object rest
destructuring: an object's entries, an array's or string's index entries,
nothing for other values. -/
def ownEnumerableEntries : JSValue → List (String × JSValue)
  | .obj fields => fields
  | .arr items => enumIndexed 0 items
  | .str s => enumIndexed 0 (s.toList.map (fun c => .str c.toString))
  | _ => []

/-- Model of `sanitizeResponse(data)`: null for a falsy argument; otherwise the
destructuring `const (ssn, dateOfBirth, fullName, ...sanitized) = data`
builds a plain object from the non-sensitive own enumerable entries, which
is then passed through `sanitizeObject`. -/
def sanitizeResponse (data : JSValue) : JSValue :=
  if jsFalsy data then .null
  else sanitizeObject (.obj (eraseSensitive (ownEnumerableEntries data)))

/-- Top-level keys of a value: an object's key list, empty otherwise. -/
def topKeys : JSValue → List String
  | .obj fields => fields.map Prod.fst
  | _ => []

/-! ## Shared example states -/

/-- A fresh wallet `localStorage` with no keys set. -/
def emptyWalletStore : WalletStore :=
  { walletAddress := none, walletConnection := none }

/-- The initial wallet slice before any connection. -/
def initialWalletState : WalletState :=
  { address := none, chainId := none, isConnected := false,
    network := none, walletType := none, lastConnected := none }

/-! ## Helper lemmas -/

/-- Sanitizing a plain object's entries preserves the key list. -/
theorem sanitizeFields_map_fst (l : List (String × JSValue)) :
    (sanitizeFields l).map Prod.fst = l.map Prod.fst := by
  induction l with
  | nil => rfl
  | cons kv rest ih =>
    obtain ⟨k, v⟩ := kv
    simp [sanitizeFields, ih]

/-- A key of the rest object left by the sensitive-field destructuring is
never one of the three sensitive names. -/
theorem mem_eraseSensitive_not_sensitive (l : List (String × JSValue)) (k : String)
    (h : k ∈ (eraseSensitive l).map Prod.fst) : ¬ k ∈ sensitiveKeys := by
  induction l with
  | nil => simp [eraseSensitive] at h
  | cons kv rest ih =>
    obtain ⟨k0, v0⟩ := kv
    by_cases hc : sensitiveKeys.contains k0
    · simp only [eraseSensitive, List.filter] at h ih
      rw [hc] at h
      exact ih h
    · simp only [eraseSensitive, List.filter] at h ih
      rw [Bool.not_eq_true] at hc
      rw [hc] at h
      simp only [Bool.not_false, List.map_cons, List.mem_cons] at h
      rcases h with h | h
      · subst h
        intro hmem
        simp [List.contains, List.elem_iff] at hc
        exact hc hmem
      · exact ih h

/-! ## C1 — connect() and address lowercasing -/

/-- Provider behaviour for the C1 scenario: one mixed-case account,
network available. -/
def c1Provider : Provider :=
  { accountsOutcome := .ok ["0xABC"], networkOutcome := .ok "0x1" }

/-- C1 counterexample: a successful `connectWallet()` with the provider
returning `"0xABC"` persists and exposes the address exactly as returned,
not lowercased, contradicting the claimed `Connected("0xabc...")` and
`wallet.address = "0xabc..."`. -/
theorem connect_lowercases_address_cex :
    (connectWallet (some c1Provider) 0 emptyWalletStore initialWalletState).success = true ∧
    (connectWallet (some c1Provider) 0 emptyWalletStore initialWalletState).store.walletAddress
      = some "0xABC" ∧
    (connectWallet (some c1Provider) 0 emptyWalletStore initialWalletState).store.walletAddress
      ≠ some "0xabc" ∧
    (connectWallet (some c1Provider) 0 emptyWalletStore initialWalletState).wallet.address
      ≠ some "0xabc" := by
  decide

/-- C1 (amended): when `connect()` succeeds with the provider returning a
first account `a`, the connection state becomes connected with address `a`
exactly as the provider returned it (no lowercasing), and the persisted
wallet-address entry holds that same verbatim address, with the connection
flag set, for every address the provider returns. -/
theorem connect_persists_address_verbatim (p : Provider) (now : Int)
    (s : WalletStore) (w : WalletState) (a : String) (rest : List String)
    (chain : String)
    (hacc : p.accountsOutcome = .ok (a :: rest))
    (hnet : p.networkOutcome = .ok chain) :
    (connectWallet (some p) now s w).success = true ∧
    (connectWallet (some p) now s w).wallet.address = some a ∧
    (connectWallet (some p) now s w).wallet.chainId = some chain ∧
    (connectWallet (some p) now s w).wallet.isConnected = true ∧
    (connectWallet (some p) now s w).store.walletAddress = some a ∧
    (connectWallet (some p) now s w).store.walletConnection = some "true" := by
  simp [connectWallet, hacc, hnet]

/-- C1 witness: the amended statement at the concrete C1 scenario. -/
theorem connect_persists_address_verbatim_witness :
    (connectWallet (some c1Provider) 0 emptyWalletStore initialWalletState).success = true ∧
    (connectWallet (some c1Provider) 0 emptyWalletStore initialWalletState).wallet.address
      = some "0xABC" ∧
    (connectWallet (some c1Provider) 0 emptyWalletStore initialWalletState).wallet.chainId
      = some "0x1" ∧
    (connectWallet (some c1Provider) 0 emptyWalletStore initialWalletState).wallet.isConnected
      = true ∧
    (connectWallet (some c1Provider) 0 emptyWalletStore initialWalletState).store.walletAddress
      = some "0xABC" ∧
    (connectWallet (some c1Provider) 0 emptyWalletStore initialWalletState).store.walletConnection
      = some "true" :=
  connect_persists_address_verbatim c1Provider 0 emptyWalletStore initialWalletState
    "0xABC" [] "0x1" (by rfl) (by rfl)

/-! ## C2 — accountsChanged([]) while connected -/

/-- A connected wallet slice for the C2 scenario. -/
def c2Wallet : WalletState :=
  { address := some "0xabc", chainId := some "0x1", isConnected := true,
    network := some (getNetworkFromChainId (some "0x1")),
    walletType := some "metamask", lastConnected := some 0 }

/-- The persisted wallet keys matching the C2 connected state. -/
def c2Store : WalletStore :=
  { walletAddress := some "0xabc", walletConnection := some "true" }

/-- C2 counterexample: on `accountsChanged([])` while connected, the handler
emits zero compliance audit events (it only dispatches a Redux
notification), not the claimed exactly one `AUTH_LOGOUT`-equivalent audit
event. -/
theorem accounts_changed_empty_audit_cex :
    ((handleAccountsChanged true [] c2Store c2Wallet).emitted.filter
        isAuditEvent).length = 0 ∧
    ¬ ((handleAccountsChanged true [] c2Store c2Wallet).emitted.filter
        isAuditEvent).length = 1 := by
  decide

/-- C2 (amended): for every delivery of an `accountsChanged` notification
carrying an empty account list while the handler is active, the state
transitions to disconnected, the persisted wallet address and connection
flag are cleared, and exactly one informational "Wallet disconnected"
notification is dispatched — but no compliance audit event is emitted. -/
theorem accounts_changed_empty_disconnects (s : WalletStore) (w : WalletState) :
    (handleAccountsChanged true [] s w).wallet.isConnected = false ∧
    (handleAccountsChanged true [] s w).wallet.address = none ∧
    (handleAccountsChanged true [] s w).store.walletAddress = none ∧
    (handleAccountsChanged true [] s w).store.walletConnection = none ∧
    (handleAccountsChanged true [] s w).emitted
      = [.notification "info" "Wallet disconnected"] ∧
    (handleAccountsChanged true [] s w).emitted.filter isAuditEvent = [] := by
  simp [handleAccountsChanged, isAuditEvent]

/-! ## C3 — refresh() failure and credential clearing -/

/-- Memory state for the C3 scenario: a token bundle with no refresh token. -/
def c3Mem : AuthMem :=
  { token := some "demo_token_1", refreshToken := none,
    tokenExpiry := some 1000, userProfile := none, isNewUser := false,
    walletAddress := none }

/-- Persisted state matching `c3Mem`. -/
def c3Store : AuthStore :=
  { token := some "demo_token_1", refreshToken := none,
    tokenExpiry := some 1000, userProfile := none, isNewUser := none,
    walletAddress := none }

/-- C3 counterexample: with no refresh token, `refreshAuthToken()` fails yet
the stored token and expiry are retained unchanged — not cleared as the
claim requires. -/
theorem refresh_failure_retains_credential_cex :
    (refreshAuthToken c3Mem c3Store 0).ok = false ∧
    (refreshAuthToken c3Mem c3Store 0).mem.token = some "demo_token_1" ∧
    (refreshAuthToken c3Mem c3Store 0).mem.tokenExpiry = some 1000 ∧
    (refreshAuthToken c3Mem c3Store 0).store.token = some "demo_token_1" ∧
    (refreshAuthToken c3Mem c3Store 0).store.tokenExpiry = some 1000 := by
  decide

/-- C3 (amended): whenever `refreshAuthToken()` fails it leaves the stored
session credential exactly as it was — in memory and in `localStorage` —
rather than clearing it. -/
theorem refresh_failure_leaves_state_unchanged (m : AuthMem) (s : AuthStore)
    (now : Int) (h : (refreshAuthToken m s now).ok = false) :
    (refreshAuthToken m s now).mem = m ∧ (refreshAuthToken m s now).store = s := by
  by_cases ht : truthy m.refreshToken = false
  · simp [refreshAuthToken, ht]
  · simp [refreshAuthToken, ht] at h

/-- C3 witness: the amended statement at the concrete no-refresh-token
scenario. -/
theorem refresh_failure_leaves_state_unchanged_witness :
    (refreshAuthToken c3Mem c3Store 0).mem = c3Mem ∧
    (refreshAuthToken c3Mem c3Store 0).store = c3Store :=
  refresh_failure_leaves_state_unchanged c3Mem c3Store 0 (by decide)

/-! ## C4 — logout() and isAuthenticated() -/

/-- Memory state for the C4 scenario: a fully valid credential. -/
def c4Mem : AuthMem :=
  { token := some "demo_token_1", refreshToken := some "demo_refresh_1",
    tokenExpiry := some 1000, userProfile := some "profile",
    isNewUser := false, walletAddress := some "0xabc" }

/-- Persisted state matching `c4Mem`. -/
def c4Store : AuthStore :=
  { token := some "demo_token_1", refreshToken := some "demo_refresh_1",
    tokenExpiry := some 1000, userProfile := some "profile",
    isNewUser := some "false", walletAddress := some "0xabc" }

/-- C4 counterexample: when the audit-log write inside `logout()` rejects,
the catch block returns `false` without clearing anything, so
`isAuthenticated()` immediately afterwards is still `true` — the claim's
"unconditionally false, including when the audit-log write fails" does not
hold. -/
theorem logout_audit_failure_cex :
    (logout c4Mem c4Store false).ok = false ∧
    isAuthenticated (logout c4Mem c4Store false).mem 0 = true := by
  decide

/-- C4 (amended): after a `logout()` whose audit-log write resolves,
`isAuthenticated()` is false from every starting state at every instant
(including a state just produced by a refresh); when the audit-log write
rejects, `logout()` returns false and leaves memory and storage unchanged. -/
theorem logout_then_not_authenticated (m : AuthMem) (s : AuthStore) (now : Int) :
    isAuthenticated (logout m s true).mem now = false ∧
    (logout m s true).ok = true ∧
    (logout m s false).mem = m ∧
    (logout m s false).store = s ∧
    (logout m s false).ok = false := by
  simp [logout, isAuthenticated, truthy]

/-! ## C5 — closed-at-or-after expiry rule -/

/-- C5: for every in-memory credential whose stored expiry instant is at or
before `now`, the credential is treated as expired: `isAuthenticated()` and
`verifyToken()` both return false. -/
theorem expired_credential_rejected (m : AuthMem) (now e : Int)
    (hexp : m.tokenExpiry = some e) (hle : e ≤ now) :
    isAuthenticated m now = false ∧ verifyToken m now = false := by
  by_cases ht : truthy m.token = false
  · simp [isAuthenticated, verifyToken, ht]
  · simp [isAuthenticated, verifyToken, ht, hexp, hle]

/-- Memory state for the C5 witness: a token expiring exactly at instant 5. -/
def c5Mem : AuthMem :=
  { token := some "demo_token_1", refreshToken := none,
    tokenExpiry := some 5, userProfile := none, isNewUser := false,
    walletAddress := none }

/-- C5 witness: the boundary instant `expiresAt = now` already counts as
expired. -/
theorem expired_credential_rejected_witness :
    isAuthenticated c5Mem 5 = false ∧ verifyToken c5Mem 5 = false :=
  expired_credential_rejected c5Mem 5 5 (by rfl) (by decide)

/-! ## C6 — connect() without a provider -/

/-- C6: calling `connectWallet()` with no provider capability fails with the
provider-unavailable message and performs no persistence writes: the wallet
`localStorage` keys and the wallet slice are exactly what they were. -/
theorem connect_without_provider_rejects (now : Int) (s : WalletStore)
    (w : WalletState) :
    (connectWallet none now s w).success = false ∧
    (connectWallet none now s w).error
      = some "Please install MetaMask to continue" ∧
    (connectWallet none now s w).store = s ∧
    (connectWallet none now s w).wallet = w := by
  simp [connectWallet]

/-! ## C7 — token/expiresAt paired invariant -/

/-- Persisted state for the C7 scenario: a stored token with no stored
expiry. -/
def c7Store : AuthStore :=
  { token := some "demo_token_1", refreshToken := none, tokenExpiry := none,
    userProfile := none, isNewUser := none, walletAddress := none }

/-- Memory state for the C7 witness: only a refresh token, so a refresh
succeeds. -/
def c7Mem : AuthMem :=
  { token := none, refreshToken := some "demo_refresh_1", tokenExpiry := none,
    userProfile := none, isNewUser := false, walletAddress := none }

/-- Authentication data for the C7 witness. -/
def c7Data : AuthData :=
  { token := some "demo_token_2", refreshToken := some "demo_refresh_2",
    expiresAt := some 7, userProfile := none, isNewUser := false }

/-- C7 counterexample: `loadAuthState()` reads each key independently, so a
persisted token without a persisted expiry loads into memory with the token
present and the expiry absent — and the code then treats that credential as
authenticated — violating the claimed token-iff-expiry invariant. -/
theorem token_expiry_invariant_cex :
    (loadAuthState c7Store).token.isSome = true ∧
    (loadAuthState c7Store).tokenExpiry.isSome = false ∧
    isAuthenticated (loadAuthState c7Store) 0 = true := by
  decide

/-- C7 (amended): a successful `refreshAuthToken()` sets token and expiry
together in memory and storage, and `updateAuthState()` installs in memory
exactly the token/expiry pair it is given (so both are set whenever the
caller supplies both, as the login and refresh paths do) — but
`loadAuthState()` copies each persisted key verbatim, so the invariant does
not survive loading a store that holds one without the other. -/
theorem token_expiry_set_together_only_on_write (m : AuthMem) (s : AuthStore)
    (now : Int) (d : AuthData) (s2 : AuthStore) :
    ((refreshAuthToken m s now).ok = true →
      ((refreshAuthToken m s now).mem.token.isSome = true ∧
       (refreshAuthToken m s now).mem.tokenExpiry.isSome = true ∧
       (refreshAuthToken m s now).store.token.isSome = true ∧
       (refreshAuthToken m s now).store.tokenExpiry.isSome = true)) ∧
    (updateAuthState m s d).1.token = d.token ∧
    (updateAuthState m s d).1.tokenExpiry = d.expiresAt ∧
    (loadAuthState s2).token = s2.token ∧
    (loadAuthState s2).tokenExpiry = s2.tokenExpiry := by
  refine ⟨?_, ?_, ?_, ?_, ?_⟩
  · intro hok
    by_cases ht : truthy m.refreshToken = false
    · simp [refreshAuthToken, ht] at hok
    · simp [refreshAuthToken, ht]
  · simp [updateAuthState]
  · simp [updateAuthState]
  · simp [loadAuthState]
  · simp [loadAuthState]

/-- C7 witness: the amended statement at a concrete refreshable state. -/
theorem token_expiry_set_together_only_on_write_witness :
    ((refreshAuthToken c7Mem c7Store 0).mem.token.isSome = true ∧
     (refreshAuthToken c7Mem c7Store 0).mem.tokenExpiry.isSome = true ∧
     (refreshAuthToken c7Mem c7Store 0).store.token.isSome = true ∧
     (refreshAuthToken c7Mem c7Store 0).store.tokenExpiry.isSome = true) ∧
    (updateAuthState c7Mem c7Store c7Data).1.token = c7Data.token ∧
    (updateAuthState c7Mem c7Store c7Data).1.tokenExpiry = c7Data.expiresAt ∧
    (loadAuthState c7Store).token = c7Store.token ∧
    (loadAuthState c7Store).tokenExpiry = c7Store.tokenExpiry :=
  ⟨(token_expiry_set_together_only_on_write c7Mem c7Store 0 c7Data c7Store).1
      (by decide),
   (token_expiry_set_together_only_on_write c7Mem c7Store 0 c7Data c7Store).2⟩

/-! ## C8 — disconnect() idempotence -/

/-- C8: `disconnectWallet()` is idempotent — running it a second time from
the state the first call left behind reproduces that exact output (identity
cleared, persisted wallet keys removed, disconnected state), and both calls
return `true` (the model is total because the source swallows every provider
error in the inner try/catch). -/
theorem disconnect_idempotent (sess : SessionStore) (s : WalletStore)
    (w : WalletState) :
    disconnectWallet (disconnectWallet sess s w).session
        (disconnectWallet sess s w).store (disconnectWallet sess s w).wallet
      = disconnectWallet sess s w ∧
    (disconnectWallet sess s w).result = true ∧
    (disconnectWallet sess s w).store.walletAddress = none ∧
    (disconnectWallet sess s w).store.walletConnection = none ∧
    (disconnectWallet sess s w).wallet.isConnected = false ∧
    (disconnectWallet sess s w).wallet.address = none := by
  simp [disconnectWallet]

/-! ## C9 — connect() failure clears persisted wallet keys -/

/-- C9: if a provider capability is present and `connectWallet()` fails for
any reason (user rejection 4001, pending request -32002, any other
rejection, an empty account list, or a network-info error), the persisted
wallet address and connection flag are both absent afterwards, whatever they
were before. -/
theorem connect_failure_clears_persistence (p : Provider) (now : Int)
    (s : WalletStore) (w : WalletState)
    (h : (connectWallet (some p) now s w).success = false) :
    (connectWallet (some p) now s w).store.walletAddress = none ∧
    (connectWallet (some p) now s w).store.walletConnection = none := by
  obtain ⟨acc, net⟩ := p
  cases acc with
  | rejected code => simp [connectWallet]
  | ok accounts =>
    cases accounts with
    | nil => simp [connectWallet]
    | cons a rest =>
      cases net with
      | failure => simp [connectWallet]
      | ok chain => simp [connectWallet] at h

/-- Provider behaviour for the C9 witness: the user rejects (code 4001). -/
def c9Provider : Provider :=
  { accountsOutcome := .rejected 4001, networkOutcome := .ok "0x1" }

/-- Persisted wallet keys left by an earlier successful connection, for the
C9 witness. -/
def c9Store : WalletStore :=
  { walletAddress := some "0xabc", walletConnection := some "true" }

/-- C9 witness: a rejected request wipes previously persisted wallet keys. -/
theorem connect_failure_clears_persistence_witness :
    (connectWallet (some c9Provider) 0 c9Store initialWalletState).store.walletAddress
      = none ∧
    (connectWallet (some c9Provider) 0 c9Store initialWalletState).store.walletConnection
      = none :=
  connect_failure_clears_persistence c9Provider 0 c9Store initialWalletState
    (by decide)

/-! ## C10 — sanitizeResponse hides the sensitive fields -/

/-- C10: `sanitizeResponse` never exposes the `ssn`, `dateOfBirth` or
`fullName` fields: any two non-falsy inputs whose own enumerable entries
agree outside those three fields sanitize to equal outputs
(noninterference); no top-level key of any output is one of those three
names; and a falsy input yields null. -/
theorem sanitizeResponse_hides_sensitive :
    (∀ a b : JSValue, jsFalsy a = false → jsFalsy b = false →
        eraseSensitive (ownEnumerableEntries a)
          = eraseSensitive (ownEnumerableEntries b) →
        sanitizeResponse a = sanitizeResponse b) ∧
    (∀ (v : JSValue) (k : String),
        k ∈ topKeys (sanitizeResponse v) → ¬ k ∈ sensitiveKeys) ∧
    (∀ v : JSValue, jsFalsy v = true → sanitizeResponse v = .null) := by
  refine ⟨?_, ?_, ?_⟩
  · intro a b ha hb he
    simp [sanitizeResponse, ha, hb, he]
  · intro v k hk
    by_cases hv : jsFalsy v = true
    · simp [sanitizeResponse, hv, topKeys] at hk
    · rw [Bool.not_eq_true] at hv
      simp only [sanitizeResponse, hv, Bool.false_eq_true, if_false,
        sanitizeObject, topKeys] at hk
      rw [sanitizeFields_map_fst] at hk
      exact mem_eraseSensitive_not_sensitive _ k hk
  · intro v hv
    simp [sanitizeResponse, hv]

/-- First input for the C10 witness: carries an `ssn` entry. -/
def c10a : JSValue := .obj [("id", .num 1), ("ssn", .num 9)]

/-- Second input for the C10 witness: same non-sensitive entries, different
sensitive ones. -/
def c10b : JSValue :=
  .obj [("id", .num 1), ("dateOfBirth", .num 7), ("fullName", .bool true)]

/-- C10 witness: the noninterference and falsy clauses at concrete inputs. -/
theorem sanitizeResponse_hides_sensitive_witness :
    sanitizeResponse c10a = sanitizeResponse c10b ∧
    sanitizeResponse JSValue.null = JSValue.null :=
  ⟨sanitizeResponse_hides_sensitive.1 c10a c10b (by rfl) (by rfl) (by rfl),
   sanitizeResponse_hides_sensitive.2.2 JSValue.null (by rfl)⟩

end Healthmint
